import Mathlib

/-!
Verification of the 360° product-video generation backend.

This file gives a shallow embedding of the server code:

* `src/shared/schema.ts` — the `VideoGeneration` record and its status enum;
* `src/server/storage.ts` — the in-memory job store (`MemStorage`);
* `src/server/routes.ts` — the provider wrappers `uploadToImageKit`,
  `analyzeImageWithGemini`, `generateVideoWithVertexAI` (including its
  polling loop), and the `/api/generate-360-video` pipeline handler.

Network I/O is abstracted by oracle parameters: each external HTTP exchange
is an input to the embedded function (its already-parsed outcome), while all
control flow, environment-variable checks, string manipulation and store
mutations are translated directly from the TypeScript source.  Timestamps
(`new Date()` / `Date.now()`) are explicit `Nat` parameters.
-/

/-- The `status` enum of `videoGenerationSchema` (src/shared/schema.ts line 34). -/
inductive JobStatus where
  | pending
  | analyzing
  | generating
  | completed
  | failed
deriving DecidableEq, Repr

/-- The `VideoGeneration` record (src/shared/schema.ts lines 29-42).
Optional fields are `Option`; the ISO-8601 timestamp strings are modelled
as `Nat` instants (ISO strings of successive instants compare like the
instants themselves). -/
structure VideoGeneration where
  id : String
  productName : String
  imageUrl : String
  imagekitUrl : Option String
  status : JobStatus
  geminiDescription : Option String
  videoPrompt : Option String
  videoUrl : Option String
  videoData : Option String
  error : Option String
  createdAt : Nat
  updatedAt : Nat
deriving DecidableEq, Repr

/-- `InsertVideoGeneration = Omit<VideoGeneration, 'id' | 'createdAt' | 'updatedAt'>`
(src/shared/schema.ts line 47). -/
structure InsertVideoGeneration where
  productName : String
  imageUrl : String
  imagekitUrl : Option String := none
  status : JobStatus
  geminiDescription : Option String := none
  videoPrompt : Option String := none
  videoUrl : Option String := none
  videoData : Option String := none
  error : Option String := none
deriving DecidableEq, Repr

/-- `Partial<InsertVideoGeneration>`: every field may be absent (`none`).
Note that `id`, `createdAt` and `updatedAt` are excluded at the type level
(they are omitted from `InsertVideoGeneration`), while `productName` and
`imageUrl` and all optional fields may be supplied by an update. -/
structure PartialInsert where
  productName : Option String := none
  imageUrl : Option String := none
  imagekitUrl : Option String := none
  status : Option JobStatus := none
  geminiDescription : Option String := none
  videoPrompt : Option String := none
  videoUrl : Option String := none
  videoData : Option String := none
  error : Option String := none
deriving DecidableEq, Repr

/-- The object-spread merge `{ ...existing, ...data, updatedAt: now }` of
`MemStorage.updateVideoGeneration` (src/server/storage.ts lines 39-43):
each field supplied by `data` overwrites the existing one, `updatedAt` is
set to the current time, and `id`/`createdAt` are carried over unchanged. -/
def mergePartial (existing : VideoGeneration) (data : PartialInsert) (now : Nat) :
    VideoGeneration where
  id := existing.id
  productName := data.productName.getD existing.productName
  imageUrl := data.imageUrl.getD existing.imageUrl
  imagekitUrl := data.imagekitUrl.or existing.imagekitUrl
  status := data.status.getD existing.status
  geminiDescription := data.geminiDescription.or existing.geminiDescription
  videoPrompt := data.videoPrompt.or existing.videoPrompt
  videoUrl := data.videoUrl.or existing.videoUrl
  videoData := data.videoData.or existing.videoData
  error := data.error.or existing.error
  createdAt := existing.createdAt
  updatedAt := now

/-- `Map.set` on the association list backing the store: replace the first
binding of the key, else append a new binding (JavaScript `Map` semantics:
existing keys keep their position, new keys are appended). -/
def setKey : List (String × VideoGeneration) → String → VideoGeneration →
    List (String × VideoGeneration)
  | [], id, v => [(id, v)]
  | p :: rest, id, v =>
    if p.1 == id then (id, v) :: rest else p :: setKey rest id v

/-- `MemStorage` (src/server/storage.ts lines 11-16): a `Map<string, VideoGeneration>`,
modelled as an association list in insertion order. -/
structure MemStorage where
  videoGenerations : List (String × VideoGeneration)
deriving DecidableEq, Repr

/-- `MemStorage.getVideoGeneration` (src/server/storage.ts lines 31-33). -/
def MemStorage.getVideoGeneration (s : MemStorage) (id : String) :
    Option VideoGeneration :=
  (s.videoGenerations.find? (fun p => p.1 == id)).map (·.2)

/-- `MemStorage.createVideoGeneration` (src/server/storage.ts lines 18-29):
build the record from the insert data plus a fresh `id` (the
`randomUUID()` value is a parameter here) and a single timestamp used for
both `createdAt` and `updatedAt`, then `set` it into the map.  Returns the
record and the new store. -/
def MemStorage.createVideoGeneration (s : MemStorage) (id : String) (now : Nat)
    (data : InsertVideoGeneration) : VideoGeneration × MemStorage :=
  let videoGeneration : VideoGeneration :=
    { productName := data.productName
      imageUrl := data.imageUrl
      imagekitUrl := data.imagekitUrl
      status := data.status
      geminiDescription := data.geminiDescription
      videoPrompt := data.videoPrompt
      videoUrl := data.videoUrl
      videoData := data.videoData
      error := data.error
      id := id
      createdAt := now
      updatedAt := now }
  (videoGeneration, ⟨setKey s.videoGenerations id videoGeneration⟩)

/-- `MemStorage.updateVideoGeneration` (src/server/storage.ts lines 35-46):
no-op returning `none` for an unknown id; otherwise merge the partial data
into the existing record, refresh `updatedAt`, and store the result. -/
def MemStorage.updateVideoGeneration (s : MemStorage) (id : String) (now : Nat)
    (data : PartialInsert) : Option VideoGeneration × MemStorage :=
  match s.getVideoGeneration id with
  | none => (none, s)
  | some existing =>
    let updated := mergePartial existing data now
    (some updated, ⟨setKey s.videoGenerations id updated⟩)

/-- The environment variables consulted by the provider wrappers
(src/server/routes.ts lines 10, 58, 124-125). -/
structure Env where
  imagekitPrivateKey : Option String
  geminiApiKey : Option String
  vertexServiceAccountJson : Option String
  vertexProjectId : Option String

/-- JavaScript `s.split(',')` over the characters of a string: cut at every
comma, keeping empty segments. -/
def splitOnCommaAux : List Char → List Char → List (List Char)
  | [], acc => [acc.reverse]
  | c :: rest, acc =>
    if c = ',' then acc.reverse :: splitOnCommaAux rest []
    else splitOnCommaAux rest (c :: acc)

/-- `splitComma l` is JavaScript `String.prototype.split(',')` on the
character list `l`. -/
def splitComma (l : List Char) : List (List Char) :=
  splitOnCommaAux l []

/-- JavaScript `imageData.startsWith('http://') || imageData.startsWith('https://')`
(src/server/routes.ts lines 17 and 66). -/
def isUrl (s : String) : Bool :=
  "http://".data.isPrefixOf s.data || "https://".data.isPrefixOf s.data

/-- The base64 clean-up `imageData.includes(',') ? imageData.split(',')[1] : imageData`
(src/server/routes.ts lines 31 and 79): when the string contains a comma,
JavaScript takes element 1 of the split — the segment between the first
and the second comma. -/
def cleanBase64 (s : String) : String :=
  if s.data.contains ',' then String.mk ((splitComma s.data).getD 1 []) else s

/-- The resolved form of an image input: either a remote URL (to be fetched
and re-encoded by the provider wrapper) or an inline base64 payload. -/
inductive ImageRef where
  | url (u : String)
  | base64 (payload : String)
deriving DecidableEq, Repr

/-- Input normalization of `uploadToImageKit` (src/server/routes.ts lines 16-32):
URL detection by prefix, else the base64 clean-up. -/
def uploadImageNormalize (imageData : String) : ImageRef :=
  if isUrl imageData then .url imageData else .base64 (cleanBase64 imageData)

/-- Input normalization of `analyzeImageWithGemini` (src/server/routes.ts
lines 63-80): textually the same logic as `uploadImageNormalize`. -/
def geminiImageNormalize (imageDataOrUrl : String) : ImageRef :=
  if isUrl imageDataOrUrl then .url imageDataOrUrl
  else .base64 (cleanBase64 imageDataOrUrl)

/-- The `[^a-z0-9]/gi → '_'` sanitization applied to `productName` when
building the ImageKit file name and the download file name
(src/server/routes.ts lines 666 and 701). -/
def sanitizeFileName (s : String) : String :=
  String.mk (s.data.map (fun c => if c.isAlphanum then c else '_'))

/-- `uploadToImageKit` (src/server/routes.ts lines 9-55): raise a
configuration error when `IMAGEKIT_PRIVATE_KEY` is absent, before any
network traffic; otherwise the outcome of the upload exchange (fetch of a
URL input, the multipart POST, and response parsing) is supplied by the
`net` oracle — `.ok url` is the `url` field of the parsed ImageKit
response, `.error e` any thrown fetch/HTTP error. -/
def uploadToImageKit (env : Env) (net : Except String String)
    (_imageData _fileName : String) : Except String String :=
  match env.imagekitPrivateKey with
  | none => .error "ImageKit IMAGEKIT_PRIVATE_KEY not configured"
  | some _ => net

/-- The video prompt composed from the Gemini description
(src/server/routes.ts line 118). -/
def videoPromptOf (productName description : String) : String :=
  "Create a professional 360-degree rotating product video showcasing this " ++
  productName ++ ". " ++ description ++
  ". The video should feature smooth rotation, professional lighting, clean background, and highlight all key features and details of the product. Style: Product photography, commercial quality, 8-10 seconds duration."

/-- `analyzeImageWithGemini` (src/server/routes.ts lines 57-121): raise a
configuration error when `GEMINI_API_KEY` is absent, before any network
traffic; otherwise the Gemini exchange is supplied by the `net` oracle —
`.ok description` is the extracted `candidates[0].content.parts[0].text`,
`.error e` any fetch/HTTP/parse error. On success the function pairs the
description with the deterministically composed video prompt. -/
def analyzeImageWithGemini (env : Env) (net : Except String String)
    (_imageDataOrUrl productName : String) : Except String (String × String) :=
  match env.geminiApiKey with
  | none => .error "GEMINI_API_KEY not configured"
  | some _ =>
    match net with
    | .error e => .error e
    | .ok description => .ok (description, videoPromptOf productName description)

/-- One entry of `instances` in the Veo request body
(src/server/routes.ts lines 166-168): only a `prompt` field. -/
structure VeoInstance where
  prompt : String
deriving DecidableEq, Repr

/-- The `parameters` object of the Veo request body
(src/server/routes.ts lines 169-173). -/
structure VeoParameters where
  aspectRatio : String
  duration : Nat
  responseCount : Nat
deriving DecidableEq, Repr

/-- The Veo request body (src/server/routes.ts lines 165-174). -/
structure VeoRequestBody where
  instances : List VeoInstance
  parameters : VeoParameters
deriving DecidableEq, Repr

/-- Construction of the Veo request body from the prompt
(src/server/routes.ts lines 165-174): the only datum placed in the request
is the text prompt — there is no image field anywhere in the body. -/
def veoRequestBody (prompt : String) : VeoRequestBody :=
  { instances := [{ prompt := prompt }]
    parameters := { aspectRatio := "16:9", duration := 8, responseCount := 1 } }

/-- Outcome of one iteration of the status-poll exchange
(src/server/routes.ts lines 240-280):
`httpError` — `statusResponse.ok` false (line 251);
`notDone` — `statusData.done` falsy;
`doneError` — done with an `error` payload (line 258);
`doneVideo` — done with `predictions[0].video` (line 262);
`doneVideoUri` — done with `predictions[0].videoUri`, carrying the bytes
obtained by the follow-up download (lines 269-278, which performs no
`ok` check);
`doneEmpty` — done with neither error nor video nor videoUri, which the
code silently treats as another pending iteration. -/
inductive PollResponse where
  | httpError (status : Nat)
  | notDone
  | doneError (e : String)
  | doneVideo (video : String)
  | doneVideoUri (videoBytes : String)
  | doneEmpty
deriving Repr

/-- `maxAttempts` of the polling loop (src/server/routes.ts line 236). -/
def maxAttempts : Nat := 40

/-- The polling loop body (src/server/routes.ts lines 237-283), with the
remaining-iteration count as structural fuel and the iteration index `i`
feeding the poll oracle. Returns the result together with the number of
poll attempts actually performed; fuel exhaustion is the
`throw new Error('Video generation timed out')` at line 285. -/
def pollLoopAux (polls : Nat → PollResponse) :
    Nat → Nat → Except String (String × String) × Nat
  | _, 0 => (.error "Video generation timed out", 0)
  | i, r + 1 =>
    match polls i with
    | .httpError s => (.error ("Failed to check status: " ++ toString s), 1)
    | .doneError e => (.error ("Video generation failed: " ++ e), 1)
    | .doneVideo v => (.ok (v, "video/mp4"), 1)
    | .doneVideoUri v => (.ok (v, "video/mp4"), 1)
    | .notDone =>
      ((pollLoopAux polls (i + 1) r).1, (pollLoopAux polls (i + 1) r).2 + 1)
    | .doneEmpty =>
      ((pollLoopAux polls (i + 1) r).1, (pollLoopAux polls (i + 1) r).2 + 1)

/-- The full polling phase for an operation-based Veo response
(src/server/routes.ts lines 230-286): up to `maxAttempts` poll attempts. -/
def pollVertexOperation (polls : Nat → PollResponse) :
    Except String (String × String) × Nat :=
  pollLoopAux polls 0 maxAttempts

/-- The shape of the parsed initial Veo response that the branching at
src/server/routes.ts lines 196-289 inspects: `name` (operation handle),
`predictions[0].video`, `predictions[0].videoUri`. -/
structure VeoData where
  name : Option String
  video : Option String
  videoUri : Option String
deriving DecidableEq, Repr

/-- A printable rendering of the parsed Veo response, standing in for
`JSON.stringify(veoData)` in the error message of line 289. -/
def veoDataToString (d : VeoData) : String :=
  "name: " ++ toString d.name ++ ", video: " ++ toString d.video ++
  ", videoUri: " ++ toString d.videoUri

/-- Oracle for the network exchanges of `generateVideoWithVertexAI`:
`credentialsParse` — whether `JSON.parse` of the service-account JSON
succeeds (lines 139-146); `accessToken` — the token obtained from the
service account, `none` when absent (lines 155-160); `veoHttp` — the
initial predict exchange, `.error (status, body)` when `veoResponse.ok`
is false (lines 187-190); `downloadOk`/`downloadStatus`/`downloadBytes` —
the direct `videoUri` download of lines 211-222; `polls` — the poll
exchanges. -/
structure VeoOracle where
  credentialsParse : Bool
  accessToken : Option String
  veoHttp : Except (Nat × String) VeoData
  downloadOk : Bool
  downloadStatus : Nat
  downloadBytes : String
  polls : Nat → PollResponse

/-- The branching on the parsed initial Veo response
(src/server/routes.ts lines 196-289), in source order: the outer
`if (veoData.name || veoData.predictions?.[0]?.videoUri)` guard, then
direct video, then videoUri download (with `ok` check), then the polling
loop for an operation handle, and otherwise the `Unexpected Vertex AI
response` error. -/
def handleVeoData (o : VeoOracle) (d : VeoData) : Except String (String × String) :=
  if d.name.isSome || d.videoUri.isSome then
    match d.video with
    | some v => .ok (v, "video/mp4")
    | none =>
      match d.videoUri with
      | some _ =>
        if o.downloadOk then .ok (o.downloadBytes, "video/mp4")
        else .error ("Failed to download video: " ++ toString o.downloadStatus)
      | none =>
        match d.name with
        | some _ => (pollVertexOperation o.polls).1
        | none => .error ("Unexpected Vertex AI response: " ++ veoDataToString d)
  else .error ("Unexpected Vertex AI response: " ++ veoDataToString d)

/-- `generateVideoWithVertexAI` (src/server/routes.ts lines 123-290): the
two environment checks come first, before any credential parsing, token
exchange or network call; then the service-account parse, the token
fetch, the initial predict call and the response branching. The `.ok`
payload is `(videoData, mimeType)`. -/
def generateVideoWithVertexAI (env : Env) (o : VeoOracle)
    (_prompt _productName : String) : Except String (String × String) :=
  match env.vertexServiceAccountJson with
  | none =>
    .error "VERTEX_SERVICE_ACCOUNT_JSON not configured. Please add your service account JSON to Replit Secrets."
  | some _ =>
    match env.vertexProjectId with
    | none => .error "VERTEX_PROJECT_ID not configured"
    | some _ =>
      if o.credentialsParse then
        match o.accessToken with
        | none => .error "Failed to get access token from service account"
        | some _ =>
          match o.veoHttp with
          | .error es =>
            .error ("Vertex AI Veo 2 API error: " ++ toString es.1 ++ " - " ++ es.2)
          | .ok d => handleVeoData o d
      else
        .error "Invalid VERTEX_SERVICE_ACCOUNT_JSON format. Please ensure it is valid JSON without extra characters."

/-- Oracle for the three provider exchanges of one pipeline run. -/
structure PipelineOracle where
  uploadNet : Except String String
  analyzeNet : Except String String
  veo : VeoOracle

/-- What the `/api/generate-360-video` handler sends back: the 400 for a
missing image (line 647), the video attachment (lines 700-703), or the
500 failure JSON of the catch block (lines 705-711) carrying the error
message as `details`. -/
inductive PipelineOutcome where
  | badRequest (msg : String)
  | video (videoData mimeType : String)
  | failure (details : String)
deriving DecidableEq, Repr

/-- Observable result of one run of the `/api/generate-360-video` handler:
the HTTP outcome, the final store, the record created for the job, every
record value written to the store in order (`snapshots`), the store's
record at the instant the upload stage is entered (`jobAtUpload`), the
image reference handed to the describe stage (`analyzeArg`), and the
`(prompt, productName)` arguments handed to the video synthesizer
(`generateCall`). -/
structure PipelineResult where
  outcome : PipelineOutcome
  store : MemStorage
  created : Option VideoGeneration
  snapshots : List VideoGeneration
  jobAtUpload : Option VideoGeneration
  analyzeArg : Option String
  generateCall : Option (String × String)

/-- Continuation of the handler from the describe stage on
(src/server/routes.ts lines 675-711): analyze with Gemini; on failure the
outer catch returns the 500 JSON with no further store writes; on success
persist description/prompt/`generating`, call the synthesizer, and on its
success persist the video and `completed`. -/
def continueAnalyze (env : Env) (o : PipelineOracle) (s : MemStorage)
    (imageToAnalyze productName : String) (videoGen : VideoGeneration)
    (snaps : List VideoGeneration) (jobAtUpload : Option VideoGeneration)
    (t3 t4 : Nat) : PipelineResult :=
  match analyzeImageWithGemini env o.analyzeNet imageToAnalyze productName with
  | .error e =>
    { outcome := .failure e, store := s, created := some videoGen
      snapshots := snaps, jobAtUpload := jobAtUpload
      analyzeArg := some imageToAnalyze, generateCall := none }
  | .ok dp =>
    let u3 := s.updateVideoGeneration videoGen.id t3
      { geminiDescription := some dp.1, videoPrompt := some dp.2
        status := some .generating }
    match generateVideoWithVertexAI env o.veo dp.2 productName with
    | .error e =>
      { outcome := .failure e, store := u3.2, created := some videoGen
        snapshots := snaps ++ u3.1.toList, jobAtUpload := jobAtUpload
        analyzeArg := some imageToAnalyze
        generateCall := some (dp.2, productName) }
    | .ok vm =>
      let u4 := u3.2.updateVideoGeneration videoGen.id t4
        { videoData := some vm.1, status := some .completed }
      { outcome := .video vm.1 vm.2, store := u4.2, created := some videoGen
        snapshots := snaps ++ u3.1.toList ++ u4.1.toList
        jobAtUpload := jobAtUpload, analyzeArg := some imageToAnalyze
        generateCall := some (dp.2, productName) }

/-- The `/api/generate-360-video` handler (src/server/routes.ts lines
642-712).  `t0`–`t4` are the clock readings at the five store operations
(creation, `analyzing` update, `imagekitUrl` update, `generating` update,
`completed` update).  Control flow follows the source: reject an empty
image, create the record with status `pending`, immediately set
`analyzing`, then attempt the ImageKit upload inside its own try/catch —
on success record `imagekitUrl` and analyze the hosted URL, on failure
analyze the original image — and continue with describe and synthesize. -/
def runGenerate360 (env : Env) (o : PipelineOracle) (s0 : MemStorage)
    (imageData productName genId : String) (t0 t1 t2 t3 t4 : Nat) :
    PipelineResult :=
  if imageData = "" then
    { outcome := .badRequest "Image data is required", store := s0
      created := none, snapshots := [], jobAtUpload := none
      analyzeArg := none, generateCall := none }
  else
    let c := s0.createVideoGeneration genId t0
      { productName := productName, imageUrl := imageData, status := .pending }
    let u1 := c.2.updateVideoGeneration c.1.id t1 { status := some .analyzing }
    match uploadToImageKit env o.uploadNet imageData
      (sanitizeFileName productName ++ "_" ++ toString t1 ++ ".jpg") with
    | .ok url =>
      let u2 := u1.2.updateVideoGeneration c.1.id t2 { imagekitUrl := some url }
      continueAnalyze env o u2.2 url productName c.1
        ([c.1] ++ u1.1.toList ++ u2.1.toList) u1.1 t3 t4
    | .error _ =>
      continueAnalyze env o u1.2 imageData productName c.1
        ([c.1] ++ u1.1.toList) u1.1 t3 t4

/-- The record-level invariant of §8 of the specification, claim C7:
`videoPrompt` only with `description`; `videoData` only in `completed`;
`generating` only with description and prompt; `completed` only with a
video payload. -/
def jobInvariant (j : VideoGeneration) : Prop :=
  (j.videoPrompt.isSome → j.geminiDescription.isSome) ∧
  (j.videoData.isSome → j.status = .completed) ∧
  (j.status = .generating → j.geminiDescription.isSome ∧ j.videoPrompt.isSome) ∧
  (j.status = .completed → j.videoData.isSome)

/-- Modelled from the spec: "only the substring after the first comma is
used as the base64 payload" — everything following the first comma,
commas included. -/
def afterFirstComma (s : String) : String :=
  String.mk ((s.data.dropWhile (fun c => !(c == ','))).drop 1)

/-- The segment of a character list before its first comma. -/
def upToComma (l : List Char) : List Char :=
  l.takeWhile (fun c => !(c == ','))

/-! ### Concrete material for witnesses and counterexamples -/

/-- A concrete job record for store-level witnesses. -/
def sampleJob : VideoGeneration :=
  { id := "j1", productName := "Red Mug"
    imageUrl := "data:image/jpeg;base64,AAAA", imagekitUrl := none
    status := .pending, geminiDescription := none, videoPrompt := none
    videoUrl := none, videoData := none, error := none
    createdAt := 5, updatedAt := 5 }

/-- An environment with every credential present. -/
def cEnvAll : Env :=
  { imagekitPrivateKey := some "ik", geminiApiKey := some "gk"
    vertexServiceAccountJson := some "sa", vertexProjectId := some "pr" }

/-- A Veo oracle whose initial response carries the video directly. -/
def cVeoOk : VeoOracle :=
  { credentialsParse := true, accessToken := some "tok"
    veoHttp := .ok { name := some "op", video := some "VID64", videoUri := none }
    downloadOk := true, downloadStatus := 200, downloadBytes := "B"
    polls := fun _ => .notDone }

/-- A pipeline oracle on which every provider exchange succeeds. -/
def cOracleOk : PipelineOracle :=
  { uploadNet := .ok "https://cdn.example/hosted-image.jpg"
    analyzeNet := .ok "a red ceramic mug", veo := cVeoOk }

/-- A pipeline oracle whose ImageKit upload exchange fails. -/
def cOracleUploadFail : PipelineOracle :=
  { cOracleOk with uploadNet := .error "net down" }

/-- A pipeline oracle whose Gemini describe exchange fails. -/
def cOracleAnalyzeFail : PipelineOracle :=
  { cOracleOk with analyzeNet := .error "Gemini API error: 500 - boom" }

/-- An environment missing only the ImageKit private key. -/
def cEnvNoIK : Env := { cEnvAll with imagekitPrivateKey := none }

/-- An environment missing only the Gemini API key. -/
def cEnvNoGemini : Env := { cEnvAll with geminiApiKey := none }

/-- An environment missing only the Vertex service-account JSON. -/
def cEnvNoVertexSA : Env := { cEnvAll with vertexServiceAccountJson := none }

/-- An environment missing only the Vertex project id. -/
def cEnvNoVertexPID : Env := { cEnvAll with vertexProjectId := none }

/-- The `pending` record created by the concrete witness run
(`runGenerate360 … "IMGDATA" "Red Mug" "job-1" 1 2 3 4 5`). -/
def cJobPending : VideoGeneration :=
  { id := "job-1", productName := "Red Mug", imageUrl := "IMGDATA"
    imagekitUrl := none, status := .pending, geminiDescription := none
    videoPrompt := none, videoUrl := none, videoData := none, error := none
    createdAt := 1, updatedAt := 1 }

/-! ### Store lemmas -/

theorem find?_setKey (id : String) (v : VideoGeneration) :
    ∀ l : List (String × VideoGeneration),
      (setKey l id v).find? (fun p => p.1 == id) = some (id, v) := by
  intro l
  induction l with
  | nil => simp [setKey, List.find?]
  | cons p rest ih =>
    cases h : (p.1 == id) with
    | true => simp [setKey, h, List.find?]
    | false =>
      simp only [setKey, h, Bool.false_eq_true, if_false]
      rw [List.find?_cons_of_neg _ (by simp [h]), ih]

theorem getVideoGeneration_setKey (l : List (String × VideoGeneration))
    (id : String) (v : VideoGeneration) :
    MemStorage.getVideoGeneration ⟨setKey l id v⟩ id = some v := by
  simp [MemStorage.getVideoGeneration, find?_setKey]

theorem updateVideoGeneration_setKey (l : List (String × VideoGeneration))
    (id : String) (v : VideoGeneration) (now : Nat) (d : PartialInsert) :
    MemStorage.updateVideoGeneration ⟨setKey l id v⟩ id now d =
      (some (mergePartial v d now),
        ⟨setKey (setKey l id v) id (mergePartial v d now)⟩) := by
  simp [MemStorage.updateVideoGeneration, getVideoGeneration_setKey]

/-! ### Polling-loop lemmas -/

theorem pollLoopAux_count (polls : Nat → PollResponse) :
    ∀ (r i : Nat), (pollLoopAux polls i r).2 ≤ r := by
  intro r
  induction r with
  | zero => intro i; simp [pollLoopAux]
  | succ r ih =>
    intro i
    cases h : polls i
    all_goals simp only [pollLoopAux, h]
    all_goals try omega
    all_goals (have hrec := ih (i + 1); omega)

theorem pollLoopAux_timeout (polls : Nat → PollResponse) :
    ∀ (r i : Nat),
      (∀ k, k < r → polls (i + k) = PollResponse.notDone ∨
        polls (i + k) = PollResponse.doneEmpty) →
      (pollLoopAux polls i r).1 = Except.error "Video generation timed out" := by
  intro r
  induction r with
  | zero => intro i _; rfl
  | succ r ih =>
    intro i h
    have h0 := h 0 (Nat.succ_pos r)
    rw [Nat.add_zero] at h0
    have hrec : (pollLoopAux polls (i + 1) r).1 =
        Except.error "Video generation timed out" := by
      apply ih
      intro k hk
      have hx := h (k + 1) (Nat.succ_lt_succ hk)
      have he : i + (k + 1) = i + 1 + k := by omega
      rw [he] at hx
      exact hx
    rcases h0 with h0 | h0 <;> simp [pollLoopAux, h0, hrec]

theorem failed_ne_timedOut (e : String) :
    ("Video generation failed: " ++ e) ≠ "Video generation timed out" := by
  intro h
  have hd := congrArg String.data h
  rw [String.data_append] at hd
  have h17 := congrArg (fun l => l[17]?) hd
  simp only at h17
  rw [List.getElem?_append_left (by decide)] at h17
  rw [show ("Video generation failed: ".data)[17]? = some 'f' from by decide,
    show ("Video generation timed out".data)[17]? = some 't' from by decide] at h17
  exact absurd h17 (by decide)

/-! ### Comma-splitting lemmas -/

theorem splitOnCommaAux_getD_zero :
    ∀ (l acc : List Char),
      (splitOnCommaAux l acc).getD 0 [] = acc.reverse ++ upToComma l := by
  intro l
  induction l with
  | nil => intro acc; simp [splitOnCommaAux, upToComma]
  | cons c rest ih =>
    intro acc
    by_cases hc : c = ','
    · subst hc; simp [splitOnCommaAux, upToComma]
    · have hb : (c == ',') = false := by
        simp [beq_eq_false_iff_ne]; exact hc
      simp only [splitOnCommaAux, if_neg hc]
      rw [ih (c :: acc)]
      simp [upToComma, List.takeWhile_cons, hb]

theorem splitOnCommaAux_getD_one :
    ∀ (l : List Char), l.contains ',' = true → ∀ acc : List Char,
      (splitOnCommaAux l acc).getD 1 [] =
        upToComma ((l.dropWhile (fun c => !(c == ','))).drop 1) := by
  intro l
  induction l with
  | nil => intro h; simp [List.contains] at h
  | cons c rest ih =>
    intro h acc
    by_cases hc : c = ','
    · subst hc
      simp only [splitOnCommaAux, if_pos rfl, List.dropWhile_cons]
      simp only [beq_self_eq_true, Bool.not_true, Bool.false_eq_true, if_false,
        List.drop_succ_cons, List.drop_zero]
      show (splitOnCommaAux rest []).getD 0 [] = upToComma rest
      rw [splitOnCommaAux_getD_zero]
      simp
    · have h' : rest.contains ',' = true := by
        simp only [List.contains, List.elem_eq_mem, decide_eq_true_eq] at h ⊢
        rcases List.mem_cons.mp h with he | hm
        · exact absurd he.symm hc
        · exact hm
      have hb : (c == ',') = false := by
        simp [beq_eq_false_iff_ne]
        exact hc
      simp only [splitOnCommaAux, if_neg hc, List.dropWhile_cons, hb,
        Bool.not_false, if_true]
      exact ih h' (c :: acc)

/-! ### C8 -/

/-- C8 (amended): the store's `update` refreshes `updatedAt` to the time of
the mutation and preserves `createdAt`, so `updatedAt >= createdAt` holds
whenever the mutation's clock reading is at least the record's creation
time, and `updatedAt` strictly increases across a mutation exactly when the
clock strictly advanced; `create` initializes `updatedAt = createdAt`.
The code does not enforce strict growth: a mutation at an unchanged clock
reading leaves `updatedAt` unchanged. -/
theorem C8_update_refreshes_updatedAt (s : MemStorage) (id : String) (now : Nat)
    (d : PartialInsert) (j : VideoGeneration) (dat : InsertVideoGeneration)
    (h : s.getVideoGeneration id = some j) :
    ((s.updateVideoGeneration id now d).1.map VideoGeneration.updatedAt = some now) ∧
    ((s.updateVideoGeneration id now d).1.map VideoGeneration.createdAt = some j.createdAt) ∧
    (j.createdAt ≤ now →
      ∀ j', (s.updateVideoGeneration id now d).1 = some j' →
        j'.createdAt ≤ j'.updatedAt) ∧
    (j.updatedAt < now →
      ∀ j', (s.updateVideoGeneration id now d).1 = some j' →
        j.updatedAt < j'.updatedAt) ∧
    ((s.createVideoGeneration id now dat).1.updatedAt =
      (s.createVideoGeneration id now dat).1.createdAt) := by
  simp only [MemStorage.updateVideoGeneration, h]
  refine ⟨rfl, rfl, ?_, ?_, rfl⟩
  · intro hc j' hj'
    have : j' = mergePartial j d now := by
      simpa using hj'.symm
    subst this
    simpa [mergePartial] using hc
  · intro hu j' hj'
    have : j' = mergePartial j d now := by
      simpa using hj'.symm
    subst this
    simpa [mergePartial] using hu

/-- C8 witness: the amended theorem applied to a concrete store holding
`sampleJob` (created at time 5) and a mutation at time 7. -/
theorem C8_update_refreshes_updatedAt_witness :
    ((MemStorage.mk [("j1", sampleJob)]).getVideoGeneration "j1" = some sampleJob) ∧
    (((MemStorage.mk [("j1", sampleJob)]).updateVideoGeneration "j1" 7
        { status := some .analyzing }).1.map VideoGeneration.updatedAt = some 7) :=
  ⟨by decide,
   (C8_update_refreshes_updatedAt (MemStorage.mk [("j1", sampleJob)]) "j1" 7
      { status := some .analyzing } sampleJob
      { productName := "Red Mug", imageUrl := "x", status := .pending }
      (by decide)).1⟩

/-- C8 counterexample: a mutation performed while the clock still reads the
creation instant (time 5, the same millisecond) leaves `updatedAt` at 5 —
the update does not strictly increase `updatedAt`, refuting the claim that
every mutation does. -/
theorem C8_counterexample :
    ((MemStorage.mk [("j1", sampleJob)]).updateVideoGeneration "j1" 5
      { status := some .analyzing }).1.map VideoGeneration.updatedAt = some 5 ∧
    sampleJob.updatedAt = 5 ∧ ¬ (5 : Nat) < 5 := by
  refine ⟨by decide, by decide, by omega⟩

/-! ### C9 -/

/-- C9 (amended): the store's `update` never changes `id` or `createdAt`
(both are excluded from the update payload type), and it preserves
`productName` whenever the update data does not supply one; however
`productName` is part of `Partial<InsertVideoGeneration>`, so an update
that supplies it does overwrite the field. -/
theorem C9_update_preserves_identity (s : MemStorage) (id : String) (now : Nat)
    (d : PartialInsert) (j : VideoGeneration)
    (h : s.getVideoGeneration id = some j) :
    ((s.updateVideoGeneration id now d).1.map VideoGeneration.id = some j.id) ∧
    ((s.updateVideoGeneration id now d).1.map VideoGeneration.createdAt = some j.createdAt) ∧
    (d.productName = none →
      (s.updateVideoGeneration id now d).1.map VideoGeneration.productName =
        some j.productName) := by
  simp only [MemStorage.updateVideoGeneration, h]
  refine ⟨rfl, rfl, ?_⟩
  intro hp
  simp [mergePartial, hp]

/-- C9 witness: the amended theorem applied to a concrete store and an
update that supplies no `productName`. -/
theorem C9_update_preserves_identity_witness :
    ((MemStorage.mk [("j1", sampleJob)]).getVideoGeneration "j1" = some sampleJob) ∧
    (({ status := some JobStatus.analyzing : PartialInsert }).productName = none) ∧
    (((MemStorage.mk [("j1", sampleJob)]).updateVideoGeneration "j1" 7
        { status := some .analyzing }).1.map VideoGeneration.productName =
      some sampleJob.productName) :=
  ⟨by decide, by decide,
   (C9_update_preserves_identity (MemStorage.mk [("j1", sampleJob)]) "j1" 7
      { status := some .analyzing } sampleJob (by decide)).2.2 (by decide)⟩

/-- C9 counterexample: an update whose payload supplies `productName`
overwrites it — `productName` is not immutable under the store's update
operation, refuting the claim as stated. -/
theorem C9_counterexample :
    ((MemStorage.mk [("j1", sampleJob)]).updateVideoGeneration "j1" 7
      { productName := some "Other Name" }).1.map VideoGeneration.productName =
      some "Other Name" ∧
    sampleJob.productName = "Red Mug" ∧
    ("Other Name" : String) ≠ "Red Mug" := by
  refine ⟨by decide, by decide, by decide⟩

/-! ### C10 -/

/-- C10 (amended): an image input is treated as a remote URL exactly when it
starts with `http://` or `https://`, identically in the upload and the
description stages; otherwise it is treated as base64, and when it contains
a comma the payload used is the segment between the first and the second
comma (the substring after the first comma truncated at the next comma),
not everything after the first comma; a comma-free string is used as is. -/
theorem C10_image_normalization (s : String) :
    (isUrl s = true →
      uploadImageNormalize s = .url s ∧ geminiImageNormalize s = .url s) ∧
    (isUrl s = false →
      uploadImageNormalize s = .base64 (cleanBase64 s) ∧
      geminiImageNormalize s = .base64 (cleanBase64 s)) ∧
    (s.data.contains ',' = true →
      cleanBase64 s =
        String.mk (upToComma ((s.data.dropWhile (fun c => !(c == ','))).drop 1))) ∧
    (s.data.contains ',' = false → cleanBase64 s = s) := by
  refine ⟨?_, ?_, ?_, ?_⟩
  · intro h; exact ⟨by simp [uploadImageNormalize, h], by simp [geminiImageNormalize, h]⟩
  · intro h; exact ⟨by simp [uploadImageNormalize, h], by simp [geminiImageNormalize, h]⟩
  · intro h
    simp only [cleanBase64, h, if_true]
    rw [splitComma, splitOnCommaAux_getD_one s.data h []]
  · intro h
    have h' : ¬ (',' ∈ s.data) := by
      simp only [List.contains, List.elem_eq_mem] at h
      exact of_decide_eq_false h
    simp [cleanBase64, h']

/-- C10 witness: the amended theorem applied to a data-URL with a single
comma and to a remote URL. -/
theorem C10_image_normalization_witness :
    ("data:image/jpeg;base64,AAAA".data.contains ',' = true) ∧
    cleanBase64 "data:image/jpeg;base64,AAAA" =
      String.mk (upToComma (("data:image/jpeg;base64,AAAA".data.dropWhile
        (fun c => !(c == ','))).drop 1)) ∧
    (isUrl "https://x.test/i.jpg" = true) ∧
    uploadImageNormalize "https://x.test/i.jpg" = .url "https://x.test/i.jpg" :=
  ⟨by decide,
   (C10_image_normalization "data:image/jpeg;base64,AAAA").2.2.1 (by decide),
   by decide,
   ((C10_image_normalization "https://x.test/i.jpg").1 (by decide)).1⟩

/-- C10 counterexample: on the input `"x,a,b"` (base64 branch, two commas)
the code uses `"a"` — the segment between the two commas — whereas the
claim's "substring after the first comma" is `"a,b"`; the two differ. -/
theorem C10_counterexample :
    uploadImageNormalize "x,a,b" = ImageRef.base64 "a" ∧
    geminiImageNormalize "x,a,b" = ImageRef.base64 "a" ∧
    afterFirstComma "x,a,b" = "a,b" ∧
    ("a" : String) ≠ "a,b" := by
  refine ⟨by decide, by decide, by decide, by decide⟩

/-! ### C6 -/

/-- C6: the polling loop of `generateVideoWithVertexAI` performs at most
`maxAttempts = 40` poll attempts; if no poll within the bound reports a
completed operation (with payload or error), the loop signals the timeout
error `Video generation timed out`; and that timeout message is distinct
from every provider-failure message `Video generation failed: …`. -/
theorem C6_poll_bound_and_timeout (polls : Nat → PollResponse) :
    maxAttempts = 40 ∧
    (pollVertexOperation polls).2 ≤ maxAttempts ∧
    ((∀ i, i < maxAttempts → polls i = PollResponse.notDone ∨
        polls i = PollResponse.doneEmpty) →
      (pollVertexOperation polls).1 = Except.error "Video generation timed out") ∧
    (∀ e, ("Video generation failed: " ++ e) ≠ "Video generation timed out") := by
  refine ⟨rfl, pollLoopAux_count polls maxAttempts 0, ?_, failed_ne_timedOut⟩
  intro h
  apply pollLoopAux_timeout
  intro k hk
  rw [Nat.zero_add]
  exact h k hk

/-- C6 witness: the theorem applied to the oracle whose polls never report
completion, and the message distinctness at a concrete provider error. -/
theorem C6_poll_bound_and_timeout_witness :
    (∀ i, i < maxAttempts → (fun _ => PollResponse.notDone) i = PollResponse.notDone ∨
      (fun _ => PollResponse.notDone) i = PollResponse.doneEmpty) ∧
    (pollVertexOperation (fun _ => PollResponse.notDone)).1 =
      Except.error "Video generation timed out" ∧
    ("Video generation failed: " ++ "quota exceeded") ≠ "Video generation timed out" :=
  ⟨fun _ _ => Or.inl rfl,
   (C6_poll_bound_and_timeout (fun _ => PollResponse.notDone)).2.2.1
     (fun _ _ => Or.inl rfl),
   (C6_poll_bound_and_timeout (fun _ => PollResponse.notDone)).2.2.2 "quota exceeded"⟩

/-! ### C7 -/

/-- C7: every job-record value written to the store by a pipeline run
satisfies the record invariant — `videoPrompt` is never set without
`description`, a video payload only appears together with status
`completed`, status `generating` always carries both description and
prompt, and status `completed` always carries the payload. -/
theorem C7_pipeline_record_invariant (env : Env) (o : PipelineOracle) (s0 : MemStorage)
    (imageData productName genId : String) (t0 t1 t2 t3 t4 : Nat) :
    ∀ j ∈ (runGenerate360 env o s0 imageData productName genId t0 t1 t2 t3 t4).snapshots,
      jobInvariant j := by
  by_cases himg : imageData = ""
  · simp [runGenerate360, himg]
  · rw [runGenerate360]
    simp only [if_neg himg, MemStorage.createVideoGeneration, updateVideoGeneration_setKey]
    cases hup : uploadToImageKit env o.uploadNet imageData
        (sanitizeFileName productName ++ "_" ++ toString t1 ++ ".jpg") with
    | ok url =>
      simp only [continueAnalyze, updateVideoGeneration_setKey, analyzeImageWithGemini]
      cases hg : env.geminiApiKey with
      | none =>
        simp [List.forall_mem_cons, List.forall_mem_append, jobInvariant, mergePartial]
      | some k =>
        cases ha : o.analyzeNet with
        | error e =>
          simp [List.forall_mem_cons, List.forall_mem_append, jobInvariant, mergePartial]
        | ok d =>
          simp only [updateVideoGeneration_setKey]
          cases hG : generateVideoWithVertexAI env o.veo (videoPromptOf productName d)
              productName with
          | error e =>
            simp [List.forall_mem_cons, List.forall_mem_append, jobInvariant, mergePartial]
          | ok vm =>
            simp [List.forall_mem_cons, List.forall_mem_append, jobInvariant, mergePartial,
              updateVideoGeneration_setKey]
    | error e =>
      simp only [continueAnalyze, updateVideoGeneration_setKey, analyzeImageWithGemini]
      cases hg : env.geminiApiKey with
      | none =>
        simp [List.forall_mem_cons, List.forall_mem_append, jobInvariant, mergePartial]
      | some k =>
        cases ha : o.analyzeNet with
        | error e2 =>
          simp [List.forall_mem_cons, List.forall_mem_append, jobInvariant, mergePartial]
        | ok d =>
          simp only [updateVideoGeneration_setKey]
          cases hG : generateVideoWithVertexAI env o.veo (videoPromptOf productName d)
              productName with
          | error e2 =>
            simp [List.forall_mem_cons, List.forall_mem_append, jobInvariant, mergePartial]
          | ok vm =>
            simp [List.forall_mem_cons, List.forall_mem_append, jobInvariant, mergePartial,
              updateVideoGeneration_setKey]

/-- C7 witness: the invariant holds for the `pending` record written by the
concrete all-success run. -/
theorem C7_pipeline_record_invariant_witness :
    cJobPending ∈ (runGenerate360 cEnvAll cOracleOk ⟨[]⟩ "IMGDATA" "Red Mug" "job-1"
      1 2 3 4 5).snapshots ∧ jobInvariant cJobPending :=
  ⟨by decide,
   C7_pipeline_record_invariant cEnvAll cOracleOk ⟨[]⟩ "IMGDATA" "Red Mug" "job-1"
     1 2 3 4 5 cJobPending (by decide)⟩

/-- The record created by a non-rejected pipeline run: status `pending`,
both timestamps at the creation instant, every optional field unset. -/
theorem runGenerate360_created (env : Env) (o : PipelineOracle) (s0 : MemStorage)
    (imageData productName genId : String) (t0 t1 t2 t3 t4 : Nat)
    (himg : imageData ≠ "") :
    (runGenerate360 env o s0 imageData productName genId t0 t1 t2 t3 t4).created =
      some { id := genId, productName := productName, imageUrl := imageData
             imagekitUrl := none, status := .pending, geminiDescription := none
             videoPrompt := none, videoUrl := none, videoData := none, error := none
             createdAt := t0, updatedAt := t0 } := by
  rw [runGenerate360]
  simp only [if_neg himg, MemStorage.createVideoGeneration, updateVideoGeneration_setKey]
  cases hup : uploadToImageKit env o.uploadNet imageData
      (sanitizeFileName productName ++ "_" ++ toString t1 ++ ".jpg") with
  | ok url =>
    simp only [continueAnalyze, updateVideoGeneration_setKey, analyzeImageWithGemini]
    cases hg : env.geminiApiKey with
    | none => rfl
    | some k =>
      cases ha : o.analyzeNet with
      | error e => rfl
      | ok d =>
        simp only [updateVideoGeneration_setKey]
        cases hG : generateVideoWithVertexAI env o.veo (videoPromptOf productName d)
            productName with
        | error e => rfl
        | ok vm => simp [updateVideoGeneration_setKey]
  | error e =>
    simp only [continueAnalyze, updateVideoGeneration_setKey, analyzeImageWithGemini]
    cases hg : env.geminiApiKey with
    | none => rfl
    | some k =>
      cases ha : o.analyzeNet with
      | error e2 => rfl
      | ok d =>
        simp only [updateVideoGeneration_setKey]
        cases hG : generateVideoWithVertexAI env o.veo (videoPromptOf productName d)
            productName with
        | error e2 => rfl
        | ok vm => simp [updateVideoGeneration_setKey]

/-! ### C3 -/

/-- C3 (amended): the job record is created with status `pending` before any
external provider call (its value is independent of every provider oracle),
but the `pending → analyzing` transition is performed immediately after
creation, before the upload stage begins: the store's record at the moment
the upload call is made already has status `analyzing`, so the upload stage
runs while the job is `analyzing`, not `pending`. -/
theorem C3_created_pending_upload_in_analyzing (env : Env) (o : PipelineOracle)
    (s0 : MemStorage) (imageData productName genId : String) (t0 t1 t2 t3 t4 : Nat)
    (himg : imageData ≠ "") :
    ((runGenerate360 env o s0 imageData productName genId t0 t1 t2 t3 t4).created.map
      VideoGeneration.status = some .pending) ∧
    (∀ o' : PipelineOracle,
      (runGenerate360 env o' s0 imageData productName genId t0 t1 t2 t3 t4).created =
      (runGenerate360 env o s0 imageData productName genId t0 t1 t2 t3 t4).created) ∧
    ((runGenerate360 env o s0 imageData productName genId t0 t1 t2 t3 t4).jobAtUpload.map
      VideoGeneration.status = some .analyzing) := by
  refine ⟨?_, ?_, ?_⟩
  · rw [runGenerate360_created env o s0 imageData productName genId t0 t1 t2 t3 t4 himg]
    rfl
  · intro o'
    rw [runGenerate360_created env o' s0 imageData productName genId t0 t1 t2 t3 t4 himg,
      runGenerate360_created env o s0 imageData productName genId t0 t1 t2 t3 t4 himg]
  · rw [runGenerate360]
    simp only [if_neg himg, MemStorage.createVideoGeneration, updateVideoGeneration_setKey]
    cases hup : uploadToImageKit env o.uploadNet imageData
        (sanitizeFileName productName ++ "_" ++ toString t1 ++ ".jpg") with
    | ok url =>
      simp only [continueAnalyze, updateVideoGeneration_setKey, analyzeImageWithGemini]
      cases hg : env.geminiApiKey with
      | none => simp [mergePartial]
      | some k =>
        cases ha : o.analyzeNet with
        | error e => simp [mergePartial]
        | ok d =>
          simp only [updateVideoGeneration_setKey]
          cases hG : generateVideoWithVertexAI env o.veo (videoPromptOf productName d)
              productName with
          | error e => simp [mergePartial]
          | ok vm => simp [updateVideoGeneration_setKey, mergePartial]
    | error e =>
      simp only [continueAnalyze, updateVideoGeneration_setKey, analyzeImageWithGemini]
      cases hg : env.geminiApiKey with
      | none => simp [mergePartial]
      | some k =>
        cases ha : o.analyzeNet with
        | error e2 => simp [mergePartial]
        | ok d =>
          simp only [updateVideoGeneration_setKey]
          cases hG : generateVideoWithVertexAI env o.veo (videoPromptOf productName d)
              productName with
          | error e2 => simp [mergePartial]
          | ok vm => simp [updateVideoGeneration_setKey, mergePartial]

/-- C3 witness: the amended theorem applied to the concrete all-success run. -/
theorem C3_created_pending_upload_in_analyzing_witness :
    ("IMGDATA" : String) ≠ "" ∧
    (((runGenerate360 cEnvAll cOracleOk ⟨[]⟩ "IMGDATA" "Red Mug" "job-1"
        1 2 3 4 5).created.map VideoGeneration.status = some .pending) ∧
     (∀ o' : PipelineOracle,
       (runGenerate360 cEnvAll o' ⟨[]⟩ "IMGDATA" "Red Mug" "job-1" 1 2 3 4 5).created =
       (runGenerate360 cEnvAll cOracleOk ⟨[]⟩ "IMGDATA" "Red Mug" "job-1"
         1 2 3 4 5).created) ∧
     ((runGenerate360 cEnvAll cOracleOk ⟨[]⟩ "IMGDATA" "Red Mug" "job-1"
        1 2 3 4 5).jobAtUpload.map VideoGeneration.status = some .analyzing)) :=
  ⟨by decide,
   C3_created_pending_upload_in_analyzing cEnvAll cOracleOk ⟨[]⟩ "IMGDATA" "Red Mug"
     "job-1" 1 2 3 4 5 (by decide)⟩

/-- C3 counterexample: in a concrete run whose upload succeeds, the store's
record at the moment the upload stage is entered already has status
`analyzing` (not `pending`), and the written snapshots show the transition
to `analyzing` (second write, `imagekitUrl` still unset) strictly before
the upload result is recorded (third write) — refuting both that the
transition happens only after the upload stage and that the upload runs
while the job is `pending`. -/
theorem C3_counterexample :
    ((runGenerate360 cEnvAll cOracleOk ⟨[]⟩ "IMGDATA" "Red Mug" "job-1"
        1 2 3 4 5).jobAtUpload.map VideoGeneration.status = some .analyzing) ∧
    ((runGenerate360 cEnvAll cOracleOk ⟨[]⟩ "IMGDATA" "Red Mug" "job-1"
        1 2 3 4 5).jobAtUpload.map VideoGeneration.status ≠ some .pending) ∧
    ((runGenerate360 cEnvAll cOracleOk ⟨[]⟩ "IMGDATA" "Red Mug" "job-1"
        1 2 3 4 5).snapshots.map (fun j => (j.status, j.imagekitUrl)) =
      [(.pending, none), (.analyzing, none),
       (.analyzing, some "https://cdn.example/hosted-image.jpg"),
       (.generating, some "https://cdn.example/hosted-image.jpg"),
       (.completed, some "https://cdn.example/hosted-image.jpg")]) := by
  refine ⟨by decide, by decide, by decide⟩

/-! ### C5 -/

/-- C5: when the primary-image upload fails (missing ImageKit key or a
failed upload exchange), the job is not aborted — the describe stage is
still invoked with the original image reference, the record written by the
second store operation has status `analyzing`, and `imagekitUrl` stays
unset in every record the run ever writes. -/
theorem C5_upload_failure_fallback (env : Env) (o : PipelineOracle) (s0 : MemStorage)
    (imageData productName genId : String) (t0 t1 t2 t3 t4 : Nat)
    (himg : imageData ≠ "")
    (hfail : env.imagekitPrivateKey = none ∨ ∃ e, o.uploadNet = .error e) :
    ((runGenerate360 env o s0 imageData productName genId t0 t1 t2 t3 t4).analyzeArg =
      some imageData) ∧
    (∀ j ∈ (runGenerate360 env o s0 imageData productName genId t0 t1 t2 t3 t4).snapshots,
      j.imagekitUrl = none) ∧
    (((runGenerate360 env o s0 imageData productName genId t0 t1 t2 t3 t4).snapshots.map
      VideoGeneration.status)[1]? = some .analyzing) := by
  have hup : ∃ e, uploadToImageKit env o.uploadNet imageData
      (sanitizeFileName productName ++ "_" ++ toString t1 ++ ".jpg") = .error e := by
    rcases hfail with hk | ⟨e, he⟩
    · exact ⟨"ImageKit IMAGEKIT_PRIVATE_KEY not configured",
        by simp [uploadToImageKit, hk]⟩
    · cases hk2 : env.imagekitPrivateKey with
      | none => exact ⟨"ImageKit IMAGEKIT_PRIVATE_KEY not configured",
          by simp [uploadToImageKit, hk2]⟩
      | some k => exact ⟨e, by simp [uploadToImageKit, hk2, he]⟩
  obtain ⟨e, hup⟩ := hup
  rw [runGenerate360]
  simp only [if_neg himg, MemStorage.createVideoGeneration, updateVideoGeneration_setKey,
    hup]
  simp only [continueAnalyze, updateVideoGeneration_setKey, analyzeImageWithGemini]
  cases hg : env.geminiApiKey with
  | none => simp [List.forall_mem_cons, mergePartial]
  | some k =>
    cases ha : o.analyzeNet with
    | error e2 => simp [List.forall_mem_cons, mergePartial]
    | ok d =>
      simp only [updateVideoGeneration_setKey]
      cases hG : generateVideoWithVertexAI env o.veo (videoPromptOf productName d)
          productName with
      | error e2 => simp [List.forall_mem_cons, List.forall_mem_append, mergePartial]
      | ok vm =>
        simp [List.forall_mem_cons, List.forall_mem_append, mergePartial,
          updateVideoGeneration_setKey]

/-- C5 witness: the theorem applied to the concrete run whose upload
exchange fails with `net down`. -/
theorem C5_upload_failure_fallback_witness :
    ("IMGDATA" : String) ≠ "" ∧
    cOracleUploadFail.uploadNet = .error "net down" ∧
    (((runGenerate360 cEnvAll cOracleUploadFail ⟨[]⟩ "IMGDATA" "Red Mug" "job-1"
        1 2 3 4 5).analyzeArg = some "IMGDATA") ∧
     (∀ j ∈ (runGenerate360 cEnvAll cOracleUploadFail ⟨[]⟩ "IMGDATA" "Red Mug" "job-1"
        1 2 3 4 5).snapshots, j.imagekitUrl = none) ∧
     (((runGenerate360 cEnvAll cOracleUploadFail ⟨[]⟩ "IMGDATA" "Red Mug" "job-1"
        1 2 3 4 5).snapshots.map VideoGeneration.status)[1]? = some .analyzing)) :=
  ⟨by decide, rfl,
   C5_upload_failure_fallback cEnvAll cOracleUploadFail ⟨[]⟩ "IMGDATA" "Red Mug"
     "job-1" 1 2 3 4 5 (by decide) (Or.inr ⟨"net down", rfl⟩)⟩

/-! ### C1 -/

/-- C1 (amended): when the describe stage fails (missing Gemini key or a
failed Gemini exchange), the synthesizer is never invoked and the caller
receives the structured 500 failure carrying the error message — but the
job record is left in status `analyzing` with its `error` field unset: the
handler's catch block performs no store write, so the record never reaches
status `failed` and no failure reason is attached to it. -/
theorem C1_describe_failure_short_circuit (env : Env) (o : PipelineOracle)
    (s0 : MemStorage) (imageData productName genId : String) (t0 t1 t2 t3 t4 : Nat)
    (himg : imageData ≠ "")
    (hfail : env.geminiApiKey = none ∨ ∃ e, o.analyzeNet = .error e) :
    ((runGenerate360 env o s0 imageData productName genId t0 t1 t2 t3 t4).generateCall =
      none) ∧
    (∃ e, (runGenerate360 env o s0 imageData productName genId t0 t1 t2 t3 t4).outcome =
      .failure e) ∧
    (((runGenerate360 env o s0 imageData productName genId t0 t1 t2 t3 t4).store.getVideoGeneration
      genId).map VideoGeneration.status = some .analyzing) ∧
    (((runGenerate360 env o s0 imageData productName genId t0 t1 t2 t3 t4).store.getVideoGeneration
      genId).map VideoGeneration.error = some none) := by
  rw [runGenerate360]
  simp only [if_neg himg, MemStorage.createVideoGeneration, updateVideoGeneration_setKey]
  cases hup : uploadToImageKit env o.uploadNet imageData
      (sanitizeFileName productName ++ "_" ++ toString t1 ++ ".jpg") with
  | ok url =>
    simp only [continueAnalyze, updateVideoGeneration_setKey, analyzeImageWithGemini]
    cases hg : env.geminiApiKey with
    | none =>
      refine ⟨rfl, ⟨"GEMINI_API_KEY not configured", rfl⟩, ?_, ?_⟩
      · simp [getVideoGeneration_setKey, mergePartial]
      · simp [getVideoGeneration_setKey, mergePartial]
    | some k =>
      rcases hfail with hk | ⟨e, ha⟩
      · rw [hg] at hk; exact absurd hk (by simp)
      · rw [ha]
        refine ⟨rfl, ⟨e, rfl⟩, ?_, ?_⟩
        · simp [getVideoGeneration_setKey, mergePartial]
        · simp [getVideoGeneration_setKey, mergePartial]
  | error e2 =>
    simp only [continueAnalyze, updateVideoGeneration_setKey, analyzeImageWithGemini]
    cases hg : env.geminiApiKey with
    | none =>
      refine ⟨rfl, ⟨"GEMINI_API_KEY not configured", rfl⟩, ?_, ?_⟩
      · simp [getVideoGeneration_setKey, mergePartial]
      · simp [getVideoGeneration_setKey, mergePartial]
    | some k =>
      rcases hfail with hk | ⟨e, ha⟩
      · rw [hg] at hk; exact absurd hk (by simp)
      · rw [ha]
        refine ⟨rfl, ⟨e, rfl⟩, ?_, ?_⟩
        · simp [getVideoGeneration_setKey, mergePartial]
        · simp [getVideoGeneration_setKey, mergePartial]

/-- C1 witness: the amended theorem applied to the concrete run whose Gemini
exchange fails. -/
theorem C1_describe_failure_short_circuit_witness :
    ("IMGDATA" : String) ≠ "" ∧
    cOracleAnalyzeFail.analyzeNet = .error "Gemini API error: 500 - boom" ∧
    (((runGenerate360 cEnvAll cOracleAnalyzeFail ⟨[]⟩ "IMGDATA" "Red Mug" "job-1"
        1 2 3 4 5).generateCall = none) ∧
     (∃ e, (runGenerate360 cEnvAll cOracleAnalyzeFail ⟨[]⟩ "IMGDATA" "Red Mug" "job-1"
        1 2 3 4 5).outcome = .failure e) ∧
     (((runGenerate360 cEnvAll cOracleAnalyzeFail ⟨[]⟩ "IMGDATA" "Red Mug" "job-1"
        1 2 3 4 5).store.getVideoGeneration "job-1").map VideoGeneration.status =
       some .analyzing) ∧
     (((runGenerate360 cEnvAll cOracleAnalyzeFail ⟨[]⟩ "IMGDATA" "Red Mug" "job-1"
        1 2 3 4 5).store.getVideoGeneration "job-1").map VideoGeneration.error =
       some none)) :=
  ⟨by decide, rfl,
   C1_describe_failure_short_circuit cEnvAll cOracleAnalyzeFail ⟨[]⟩ "IMGDATA"
     "Red Mug" "job-1" 1 2 3 4 5 (by decide)
     (Or.inr ⟨"Gemini API error: 500 - boom", rfl⟩)⟩

/-- C1 counterexample: in the concrete run whose describe stage fails, the
synthesizer is indeed never invoked and the caller gets a structured
failure, but the job record's status is `analyzing` — not `failed` — and
its `error` field is unset, refuting the claim that the job's status is set
to `failed` with the failure reason attached. -/
theorem C1_counterexample :
    ((runGenerate360 cEnvAll cOracleAnalyzeFail ⟨[]⟩ "IMGDATA" "Red Mug" "job-1"
        1 2 3 4 5).generateCall = none) ∧
    ((runGenerate360 cEnvAll cOracleAnalyzeFail ⟨[]⟩ "IMGDATA" "Red Mug" "job-1"
        1 2 3 4 5).outcome = .failure "Gemini API error: 500 - boom") ∧
    (((runGenerate360 cEnvAll cOracleAnalyzeFail ⟨[]⟩ "IMGDATA" "Red Mug" "job-1"
        1 2 3 4 5).store.getVideoGeneration "job-1").map VideoGeneration.status =
      some .analyzing) ∧
    (((runGenerate360 cEnvAll cOracleAnalyzeFail ⟨[]⟩ "IMGDATA" "Red Mug" "job-1"
        1 2 3 4 5).store.getVideoGeneration "job-1").map VideoGeneration.status ≠
      some .failed) ∧
    (((runGenerate360 cEnvAll cOracleAnalyzeFail ⟨[]⟩ "IMGDATA" "Red Mug" "job-1"
        1 2 3 4 5).store.getVideoGeneration "job-1").map VideoGeneration.error =
      some none) := by
  refine ⟨by decide, by decide, by decide, by decide, by decide⟩

/-! ### C2 -/

/-- C2 (amended): whenever a pipeline run reaches the synthesis stage, the
synthesizer call receives exactly the composed text prompt and the product
name — nothing else — and the Veo request body built from the prompt
contains only that prompt in its single instance: no image reference
(hosted, original, or additional) is passed to the synthesizer. -/
theorem C2_synthesizer_receives_only_prompt (env : Env) (o : PipelineOracle)
    (s0 : MemStorage) (imageData productName genId : String) (t0 t1 t2 t3 t4 : Nat)
    (himg : imageData ≠ "")
    (hcall : (runGenerate360 env o s0 imageData productName genId t0 t1 t2 t3 t4).generateCall ≠
      none) :
    (∃ d, o.analyzeNet = .ok d ∧
      (runGenerate360 env o s0 imageData productName genId t0 t1 t2 t3 t4).generateCall =
        some (videoPromptOf productName d, productName)) ∧
    (∀ p, (veoRequestBody p).instances = [{ prompt := p }]) := by
  refine ⟨?_, fun p => rfl⟩
  rw [runGenerate360] at hcall ⊢
  simp only [if_neg himg, MemStorage.createVideoGeneration,
    updateVideoGeneration_setKey] at hcall ⊢
  cases hup : uploadToImageKit env o.uploadNet imageData
      (sanitizeFileName productName ++ "_" ++ toString t1 ++ ".jpg") with
  | ok url =>
    rw [hup] at hcall
    simp only [continueAnalyze, updateVideoGeneration_setKey,
      analyzeImageWithGemini] at hcall ⊢
    cases hg : env.geminiApiKey with
    | none => rw [hg] at hcall; exact absurd rfl hcall
    | some k =>
      rw [hg] at hcall
      cases ha : o.analyzeNet with
      | error e => rw [ha] at hcall; exact absurd rfl hcall
      | ok d =>
        refine ⟨d, rfl, ?_⟩
        simp only [updateVideoGeneration_setKey]
        cases hG : generateVideoWithVertexAI env o.veo (videoPromptOf productName d)
            productName with
        | error e => rfl
        | ok vm => simp [updateVideoGeneration_setKey]
  | error e2 =>
    rw [hup] at hcall
    simp only [continueAnalyze, updateVideoGeneration_setKey,
      analyzeImageWithGemini] at hcall ⊢
    cases hg : env.geminiApiKey with
    | none => rw [hg] at hcall; exact absurd rfl hcall
    | some k =>
      rw [hg] at hcall
      cases ha : o.analyzeNet with
      | error e => rw [ha] at hcall; exact absurd rfl hcall
      | ok d =>
        refine ⟨d, rfl, ?_⟩
        simp only [updateVideoGeneration_setKey]
        cases hG : generateVideoWithVertexAI env o.veo (videoPromptOf productName d)
            productName with
        | error e => rfl
        | ok vm => simp [updateVideoGeneration_setKey]

/-- C2 witness: the amended theorem applied to the concrete all-success run. -/
theorem C2_synthesizer_receives_only_prompt_witness :
    ("IMGDATA" : String) ≠ "" ∧
    ((runGenerate360 cEnvAll cOracleOk ⟨[]⟩ "IMGDATA" "Red Mug" "job-1"
        1 2 3 4 5).generateCall ≠ none) ∧
    ((∃ d, cOracleOk.analyzeNet = .ok d ∧
      (runGenerate360 cEnvAll cOracleOk ⟨[]⟩ "IMGDATA" "Red Mug" "job-1"
        1 2 3 4 5).generateCall = some (videoPromptOf "Red Mug" d, "Red Mug")) ∧
     (∀ p, (veoRequestBody p).instances = [{ prompt := p }])) :=
  ⟨by decide, by decide,
   C2_synthesizer_receives_only_prompt cEnvAll cOracleOk ⟨[]⟩ "IMGDATA" "Red Mug"
     "job-1" 1 2 3 4 5 (by decide) (by decide)⟩

set_option maxRecDepth 16384 in
/-- C2 counterexample: in the concrete all-success run the pipeline resolved
the hosted image reference `https://cdn.example/hosted-image.jpg` (it is
the describe stage's argument), yet the synthesizer call received only the
composed prompt and the product name, and the hosted reference equals
neither of them — the resolved image references are not given to the video
synthesizer, refuting the claim. -/
theorem C2_counterexample :
    ((runGenerate360 cEnvAll cOracleOk ⟨[]⟩ "IMGDATA" "Red Mug" "job-1"
        1 2 3 4 5).analyzeArg = some "https://cdn.example/hosted-image.jpg") ∧
    ((runGenerate360 cEnvAll cOracleOk ⟨[]⟩ "IMGDATA" "Red Mug" "job-1"
        1 2 3 4 5).generateCall =
      some (videoPromptOf "Red Mug" "a red ceramic mug", "Red Mug")) ∧
    (videoPromptOf "Red Mug" "a red ceramic mug" ≠
      "https://cdn.example/hosted-image.jpg") ∧
    (("Red Mug" : String) ≠ "https://cdn.example/hosted-image.jpg") := by
  refine ⟨by decide, by decide, by decide, by decide⟩

/-! ### C4 -/

/-- When every synthesis invocation fails (as it does when a Vertex
credential is missing), a pipeline run ends in a structured failure and
the job record never reaches status `completed`: the only write of
`completed` sits in the synthesizer's success branch. -/
theorem runGenerate360_gen_error_not_completed (env : Env) (o : PipelineOracle)
    (s0 : MemStorage) (imageData productName genId : String) (t0 t1 t2 t3 t4 : Nat)
    (himg : imageData ≠ "")
    (hgen : ∀ p n : String, ∃ e, generateVideoWithVertexAI env o.veo p n = .error e) :
    (∃ e, (runGenerate360 env o s0 imageData productName genId t0 t1 t2 t3 t4).outcome =
      .failure e) ∧
    (((runGenerate360 env o s0 imageData productName genId t0 t1 t2 t3 t4).store.getVideoGeneration
      genId).map VideoGeneration.status ≠ some .completed) := by
  rw [runGenerate360]
  simp only [if_neg himg, MemStorage.createVideoGeneration, updateVideoGeneration_setKey]
  cases hup : uploadToImageKit env o.uploadNet imageData
      (sanitizeFileName productName ++ "_" ++ toString t1 ++ ".jpg") with
  | ok url =>
    simp only [continueAnalyze, updateVideoGeneration_setKey, analyzeImageWithGemini]
    cases hg : env.geminiApiKey with
    | none =>
      exact ⟨⟨"GEMINI_API_KEY not configured", rfl⟩,
        by simp [getVideoGeneration_setKey, mergePartial]⟩
    | some k =>
      cases ha : o.analyzeNet with
      | error e =>
        exact ⟨⟨e, rfl⟩, by simp [getVideoGeneration_setKey, mergePartial]⟩
      | ok d =>
        obtain ⟨e, he⟩ := hgen (videoPromptOf productName d) productName
        simp only [updateVideoGeneration_setKey, he]
        exact ⟨⟨e, rfl⟩, by simp [getVideoGeneration_setKey, mergePartial]⟩
  | error e2 =>
    simp only [continueAnalyze, updateVideoGeneration_setKey, analyzeImageWithGemini]
    cases hg : env.geminiApiKey with
    | none =>
      exact ⟨⟨"GEMINI_API_KEY not configured", rfl⟩,
        by simp [getVideoGeneration_setKey, mergePartial]⟩
    | some k =>
      cases ha : o.analyzeNet with
      | error e =>
        exact ⟨⟨e, rfl⟩, by simp [getVideoGeneration_setKey, mergePartial]⟩
      | ok d =>
        obtain ⟨e, he⟩ := hgen (videoPromptOf productName d) productName
        simp only [updateVideoGeneration_setKey, he]
        exact ⟨⟨e, rfl⟩, by simp [getVideoGeneration_setKey, mergePartial]⟩

/-- C4 (amended): every required credential or identifier is checked before
any network exchange of its stage — with the key absent the wrapper returns
the configuration error for every possible network oracle, so no network
call can have been made. For the describer API key the error is fatal (the
run never invokes the synthesizer), and for the video-synthesizer
service-account and project identifiers it is fatal too: the run ends in a
structured failure and the job record never reaches status `completed`.
But for the image host the error is not fatal: it is absorbed by the
upload-failure fallback and the run continues into the describe stage with
the original image reference. -/
theorem C4_configuration_missing (env : Env) (o : PipelineOracle) (s0 : MemStorage)
    (imageData productName genId : String) (t0 t1 t2 t3 t4 : Nat) :
    (env.imagekitPrivateKey = none → ∀ (net : Except String String) (img fn : String),
      uploadToImageKit env net img fn =
        .error "ImageKit IMAGEKIT_PRIVATE_KEY not configured") ∧
    (env.geminiApiKey = none → ∀ (net : Except String String) (img pn : String),
      analyzeImageWithGemini env net img pn =
        .error "GEMINI_API_KEY not configured") ∧
    (env.vertexServiceAccountJson = none → ∀ (o' : VeoOracle) (p n : String),
      generateVideoWithVertexAI env o' p n =
        .error "VERTEX_SERVICE_ACCOUNT_JSON not configured. Please add your service account JSON to Replit Secrets.") ∧
    (env.vertexServiceAccountJson ≠ none → env.vertexProjectId = none →
      ∀ (o' : VeoOracle) (p n : String),
      generateVideoWithVertexAI env o' p n = .error "VERTEX_PROJECT_ID not configured") ∧
    (env.geminiApiKey = none → imageData ≠ "" →
      (runGenerate360 env o s0 imageData productName genId t0 t1 t2 t3 t4).generateCall =
        none) ∧
    (env.imagekitPrivateKey = none → imageData ≠ "" →
      (runGenerate360 env o s0 imageData productName genId t0 t1 t2 t3 t4).analyzeArg =
        some imageData) ∧
    (env.vertexServiceAccountJson = none → imageData ≠ "" →
      (∃ e, (runGenerate360 env o s0 imageData productName genId t0 t1 t2 t3 t4).outcome =
        .failure e) ∧
      (((runGenerate360 env o s0 imageData productName genId t0 t1 t2 t3 t4).store.getVideoGeneration
        genId).map VideoGeneration.status ≠ some .completed)) ∧
    (env.vertexServiceAccountJson ≠ none → env.vertexProjectId = none → imageData ≠ "" →
      (∃ e, (runGenerate360 env o s0 imageData productName genId t0 t1 t2 t3 t4).outcome =
        .failure e) ∧
      (((runGenerate360 env o s0 imageData productName genId t0 t1 t2 t3 t4).store.getVideoGeneration
        genId).map VideoGeneration.status ≠ some .completed)) := by
  refine ⟨?_, ?_, ?_, ?_, ?_, ?_, ?_, ?_⟩
  · intro hk net img fn
    simp [uploadToImageKit, hk]
  · intro hk net img pn
    simp [analyzeImageWithGemini, hk]
  · intro hk o' p n
    simp [generateVideoWithVertexAI, hk]
  · intro hsa hpid o' p n
    cases hsa2 : env.vertexServiceAccountJson with
    | none => exact absurd hsa2 hsa
    | some sa => simp [generateVideoWithVertexAI, hsa2, hpid]
  · intro hg himg
    rw [runGenerate360]
    simp only [if_neg himg, MemStorage.createVideoGeneration, updateVideoGeneration_setKey]
    cases hup : uploadToImageKit env o.uploadNet imageData
        (sanitizeFileName productName ++ "_" ++ toString t1 ++ ".jpg") with
    | ok url =>
      simp [continueAnalyze, analyzeImageWithGemini, hg, updateVideoGeneration_setKey]
    | error e =>
      simp [continueAnalyze, analyzeImageWithGemini, hg, updateVideoGeneration_setKey]
  · intro hk himg
    have hup : uploadToImageKit env o.uploadNet imageData
        (sanitizeFileName productName ++ "_" ++ toString t1 ++ ".jpg") =
        .error "ImageKit IMAGEKIT_PRIVATE_KEY not configured" := by
      simp [uploadToImageKit, hk]
    rw [runGenerate360]
    simp only [if_neg himg, MemStorage.createVideoGeneration, updateVideoGeneration_setKey,
      hup]
    simp only [continueAnalyze, analyzeImageWithGemini, updateVideoGeneration_setKey]
    cases hg : env.geminiApiKey with
    | none => rfl
    | some k =>
      cases ha : o.analyzeNet with
      | error e => rfl
      | ok d =>
        simp only [updateVideoGeneration_setKey]
        cases hG : generateVideoWithVertexAI env o.veo (videoPromptOf productName d)
            productName with
        | error e => rfl
        | ok vm => simp [updateVideoGeneration_setKey]
  · intro hsa himg
    exact runGenerate360_gen_error_not_completed env o s0 imageData productName genId
      t0 t1 t2 t3 t4 himg (fun p n =>
        ⟨"VERTEX_SERVICE_ACCOUNT_JSON not configured. Please add your service account JSON to Replit Secrets.",
         by simp [generateVideoWithVertexAI, hsa]⟩)
  · intro hsa hpid himg
    obtain ⟨sa, hsa2⟩ : ∃ sa, env.vertexServiceAccountJson = some sa := by
      cases h2 : env.vertexServiceAccountJson with
      | none => exact absurd h2 hsa
      | some sa => exact ⟨sa, rfl⟩
    exact runGenerate360_gen_error_not_completed env o s0 imageData productName genId
      t0 t1 t2 t3 t4 himg (fun p n =>
        ⟨"VERTEX_PROJECT_ID not configured",
         by simp [generateVideoWithVertexAI, hsa2, hpid]⟩)

/-- C4 witness: the theorem applied to concrete environments each missing
exactly one credential, on the all-success oracle — including the
pipeline-level fatality of the missing Vertex credentials. -/
theorem C4_configuration_missing_witness :
    (cEnvNoIK.imagekitPrivateKey = none) ∧
    (uploadToImageKit cEnvNoIK (.ok "https://cdn.example/h.jpg") "IMG" "f.jpg" =
      .error "ImageKit IMAGEKIT_PRIVATE_KEY not configured") ∧
    (cEnvNoGemini.geminiApiKey = none) ∧
    (analyzeImageWithGemini cEnvNoGemini (.ok "desc") "IMG" "P" =
      .error "GEMINI_API_KEY not configured") ∧
    (generateVideoWithVertexAI cEnvNoVertexSA cVeoOk "p" "P" =
      .error "VERTEX_SERVICE_ACCOUNT_JSON not configured. Please add your service account JSON to Replit Secrets.") ∧
    (generateVideoWithVertexAI cEnvNoVertexPID cVeoOk "p" "P" =
      .error "VERTEX_PROJECT_ID not configured") ∧
    ((runGenerate360 cEnvNoGemini cOracleOk ⟨[]⟩ "IMGDATA" "Red Mug" "job-1"
        1 2 3 4 5).generateCall = none) ∧
    ((runGenerate360 cEnvNoIK cOracleOk ⟨[]⟩ "IMGDATA" "Red Mug" "job-1"
        1 2 3 4 5).analyzeArg = some "IMGDATA") ∧
    ((∃ e, (runGenerate360 cEnvNoVertexSA cOracleOk ⟨[]⟩ "IMGDATA" "Red Mug" "job-1"
        1 2 3 4 5).outcome = .failure e) ∧
     (((runGenerate360 cEnvNoVertexSA cOracleOk ⟨[]⟩ "IMGDATA" "Red Mug" "job-1"
        1 2 3 4 5).store.getVideoGeneration "job-1").map VideoGeneration.status ≠
       some .completed)) ∧
    ((∃ e, (runGenerate360 cEnvNoVertexPID cOracleOk ⟨[]⟩ "IMGDATA" "Red Mug" "job-1"
        1 2 3 4 5).outcome = .failure e) ∧
     (((runGenerate360 cEnvNoVertexPID cOracleOk ⟨[]⟩ "IMGDATA" "Red Mug" "job-1"
        1 2 3 4 5).store.getVideoGeneration "job-1").map VideoGeneration.status ≠
       some .completed)) :=
  ⟨rfl,
   (C4_configuration_missing cEnvNoIK cOracleOk ⟨[]⟩ "IMGDATA" "Red Mug" "job-1"
      1 2 3 4 5).1 rfl (.ok "https://cdn.example/h.jpg") "IMG" "f.jpg",
   rfl,
   (C4_configuration_missing cEnvNoGemini cOracleOk ⟨[]⟩ "IMGDATA" "Red Mug" "job-1"
      1 2 3 4 5).2.1 rfl (.ok "desc") "IMG" "P",
   (C4_configuration_missing cEnvNoVertexSA cOracleOk ⟨[]⟩ "IMGDATA" "Red Mug" "job-1"
      1 2 3 4 5).2.2.1 rfl cVeoOk "p" "P",
   (C4_configuration_missing cEnvNoVertexPID cOracleOk ⟨[]⟩ "IMGDATA" "Red Mug" "job-1"
      1 2 3 4 5).2.2.2.1 (by decide) rfl cVeoOk "p" "P",
   (C4_configuration_missing cEnvNoGemini cOracleOk ⟨[]⟩ "IMGDATA" "Red Mug" "job-1"
      1 2 3 4 5).2.2.2.2.1 rfl (by decide),
   (C4_configuration_missing cEnvNoIK cOracleOk ⟨[]⟩ "IMGDATA" "Red Mug" "job-1"
      1 2 3 4 5).2.2.2.2.2.1 rfl (by decide),
   (C4_configuration_missing cEnvNoVertexSA cOracleOk ⟨[]⟩ "IMGDATA" "Red Mug" "job-1"
      1 2 3 4 5).2.2.2.2.2.2.1 rfl (by decide),
   (C4_configuration_missing cEnvNoVertexPID cOracleOk ⟨[]⟩ "IMGDATA" "Red Mug" "job-1"
      1 2 3 4 5).2.2.2.2.2.2.2 (by decide) rfl (by decide)⟩

/-- C4 counterexample: with the ImageKit private key absent, the upload
wrapper raises the configuration error, yet the concrete run continues
past the upload stage all the way to a `completed` job and a returned
video — the `ConfigurationMissing` error for the image-host credential is
not fatal, refuting the claim that the job never continues past the
affected stage. -/
theorem C4_counterexample :
    (uploadToImageKit cEnvNoIK cOracleOk.uploadNet "IMGDATA" "f.jpg" =
      .error "ImageKit IMAGEKIT_PRIVATE_KEY not configured") ∧
    ((runGenerate360 cEnvNoIK cOracleOk ⟨[]⟩ "IMGDATA" "Red Mug" "job-1"
        1 2 3 4 5).outcome = .video "VID64" "video/mp4") ∧
    ((runGenerate360 cEnvNoIK cOracleOk ⟨[]⟩ "IMGDATA" "Red Mug" "job-1"
        1 2 3 4 5).generateCall ≠ none) ∧
    (((runGenerate360 cEnvNoIK cOracleOk ⟨[]⟩ "IMGDATA" "Red Mug" "job-1"
        1 2 3 4 5).store.getVideoGeneration "job-1").map VideoGeneration.status =
      some .completed) := by
  refine ⟨rfl, by decide, by decide, by decide⟩
